import Mathlib

/-!
Verification of the RedisLess core: the command parser (`Command::parse` in
`src/redisless/src/command/mod.rs`), the execution engine
(`run_command_and_get_response` in `src/redisless/src/server/util/run_command.rs`)
and the storage abstraction (`src/redisless/src/storage/mod.rs`).

Shallow embedding conventions:
- Rust byte sequences (`Vec<u8>`, `&[u8]`) become `List Nat` with each element a
  byte (0..255 on all inputs we construct).
- Fallible Rust code returns `Except`; a Rust panic (an `unwrap` that can fail)
  is modelled by an outer `Option`, `none` meaning the code aborts.
- `i64` arithmetic is `Int` with explicit wrapping modulo `2 ^ 64`
  (release-profile Rust `+=` semantics).
- Time is an explicit `now : Nat` parameter (milliseconds); the storage backend
  and expiry construction, whose implementation is not part of the analysed
  sources, are modelled from the spec where so marked.
-/

namespace Redisless

/-- Byte list of an ASCII string literal (each char's code point, which equals
its UTF-8 byte for the ASCII literals used by the source). -/
def bts (s : String) : List Nat :=
  s.data.map Char.toNat

/-- Carriage-return/line-feed terminator bytes. -/
def crlf : List Nat := [13, 10]

/-- State machine for UTF-8 validation: `pending` continuation bytes are
still expected, the next of which must lie in `[lo, hi]` (later ones in the
plain continuation range `[128, 191]`). The lead-byte dispatch encodes
RFC 3629 exactly: no overlong forms (hence the special ranges after `0xE0`
and `0xF0`), no surrogates (`0xED`), maximum U+10FFFF (`0xF4`), and lead
bytes `0xC0`/`0xC1`/`0xF5..0xFF` invalid. -/
def validUtf8Go (lo hi pending : Nat) : List Nat → Bool
  | [] => pending == 0
  | b :: t =>
    if 0 < pending then
      if lo ≤ b ∧ b ≤ hi then validUtf8Go 128 191 (pending - 1) t else false
    else if b ≤ 127 then validUtf8Go 128 191 0 t
    else if 194 ≤ b ∧ b ≤ 223 then validUtf8Go 128 191 1 t
    else if b = 224 then validUtf8Go 160 191 2 t
    else if 225 ≤ b ∧ b ≤ 236 then validUtf8Go 128 191 2 t
    else if b = 237 then validUtf8Go 128 159 2 t
    else if 238 ≤ b ∧ b ≤ 239 then validUtf8Go 128 191 2 t
    else if b = 240 then validUtf8Go 144 191 3 t
    else if 241 ≤ b ∧ b ≤ 243 then validUtf8Go 128 191 3 t
    else if b = 244 then validUtf8Go 128 143 3 t
    else false

/-- UTF-8 validity of a byte sequence, as checked by Rust's
`std::str::from_utf8`. -/
def validUtf8 (l : List Nat) : Bool :=
  validUtf8Go 128 191 0 l

/-- Decimal digit bytes of `n`, most significant first, prepended to `acc`.
The first argument is structural fuel; `fuel = n + 1` always suffices since the
value shrinks by a factor of 10 each step. -/
def decDigits : Nat → Nat → List Nat → List Nat
  | 0, _, acc => acc
  | fuel + 1, n, acc =>
    if n < 10 then (n + 48) :: acc
    else decDigits fuel (n / 10) ((n % 10 + 48) :: acc)

/-- Decimal ASCII rendering of a natural number, as Rust `u64`/`i64`
`to_string` renders a non-negative value. -/
def natToDec (n : Nat) : List Nat :=
  decDigits (n + 1) n []

/-- Decimal ASCII rendering of an `i64` value (`to_string`): a leading `-`
byte for negative values. -/
def intToDec (i : Int) : List Nat :=
  if i < 0 then 45 :: natToDec i.natAbs else natToDec i.toNat

/-- Left fold of decimal digit bytes onto an accumulator; `none` on the first
non-digit byte. -/
def parseDigitsAux : Nat → List Nat → Option Nat
  | a, [] => some a
  | a, b :: t =>
    if 48 ≤ b ∧ b ≤ 57 then parseDigitsAux (a * 10 + (b - 48)) t else none

/-- Digit-run parse: `none` on an empty run or any non-digit byte. -/
def parseNatCore (bs : List Nat) : Option Nat :=
  match bs with
  | [] => none
  | _ :: _ => parseDigitsAux 0 bs

/-- Rust `str::parse::<i64>` on the bytes of an UTF-8 string: optional sign,
then a non-empty digit run, value within `[-2 ^ 63, 2 ^ 63)`. Any non-ASCII
character begins with a byte that is not a digit or sign byte, so working on
bytes coincides with working on characters. -/
def parseI64 (bs : List Nat) : Option Int :=
  match bs with
  | [] => none
  | b :: t =>
    if b = 43 then
      (parseNatCore t).bind fun n =>
        if n ≤ 2 ^ 63 - 1 then some (Int.ofNat n) else none
    else if b = 45 then
      (parseNatCore t).bind fun n =>
        if n ≤ 2 ^ 63 then some (-(Int.ofNat n)) else none
    else
      (parseNatCore bs).bind fun n =>
        if n ≤ 2 ^ 63 - 1 then some (Int.ofNat n) else none

/-- Rust `str::parse::<u64>` on the bytes of an UTF-8 string: optional `+`
sign, then a non-empty digit run, value below `2 ^ 64`. -/
def parseU64 (bs : List Nat) : Option Nat :=
  match bs with
  | [] => none
  | b :: t =>
    if b = 43 then
      (parseNatCore t).bind fun n => if n < 2 ^ 64 then some n else none
    else
      (parseNatCore bs).bind fun n => if n < 2 ^ 64 then some n else none

/-- Two's-complement wrap of an integer into the `i64` range, the effect of
release-profile Rust `i64` addition overflow. -/
def wrapI64 (z : Int) : Int :=
  (z + 2 ^ 63) % 2 ^ 64 - 2 ^ 63

abbrev Key := List Nat
abbrev Value := List Nat

/-- Modelled from the spec: a decoded wire-protocol token ("bulk strings,
arrays"), produced by the out-of-scope decoder (`crate::protocol::Resp`, not
among the analysed sources). `Command::parse` only distinguishes bulk strings
from every other token shape, so the non-bulk variants are representative and
nested arrays are flattened away by the decoder before `parse` runs. -/
inductive Resp where
  | BulkString (b : List Nat)
  | SimpleString (b : List Nat)
  | Integer (n : Int)
  | Nil
  deriving DecidableEq, Repr

/-- Modelled from the spec: the parse-error taxonomy of §7
(`command_error::RedisCommandError`, not among the analysed sources).
`NotSupported` carries the bytes of the offending keyword; in the Rust source
it carries the `String` obtained by UTF-8-decoding exactly these bytes (the
decoding is the `unwrap` modelled in `Command.parse`). `InvalidBulk` is the
argument-extraction error for a malformed or absent bulk value, and
`InvalidDuration` the duration/expiry-construction failure. -/
inductive RedisCommandError where
  | ArgNumber
  | NotSupported (name : List Nat)
  | InvalidCommand
  | InvalidBulk
  | InvalidDuration
  deriving DecidableEq, Repr

/-- Expiry instants are absolute milliseconds, matching the explicit `now`
parameter threaded through the embedding. -/
abbrev Expiry := Nat

/-- The closed command set of `command/mod.rs` (`enum Command`). -/
inductive Command where
  | Set (k : Key) (v : Value)
  | Setnx (k : Key) (v : Value)
  | Setex (k : Key) (e : Expiry) (v : Value)
  | PSetex (k : Key) (e : Expiry) (v : Value)
  | MSet (items : List (Key × Value))
  | MSetnx (items : List (Key × Value))
  | Expire (k : Key) (e : Expiry)
  | PExpire (k : Key) (e : Expiry)
  | Get (k : Key)
  | GetSet (k : Key) (v : Value)
  | MGet (keys : List Key)
  | Del (k : Key)
  | Incr (k : Key)
  | Exists (k : Key)
  | Info
  | Ping
  | Quit
  deriving DecidableEq, Repr

/-- Modelled from the spec: `util::get_bytes_vec` (not among the analysed
sources) extracts the byte content of a bulk-string token; absence of the
token or a non-bulk token is a parse error from the argument-extraction step. -/
def get_bytes_vec : Option Resp → Except RedisCommandError (List Nat)
  | some (Resp.BulkString b) => Except.ok b
  | _ => Except.error RedisCommandError.InvalidBulk

/-- Modelled from the spec: `util::parse_duration` (not among the analysed
sources); the duration token must parse as a non-negative integer (`u64`). -/
def parse_duration (bs : List Nat) : Except RedisCommandError Nat :=
  match parseU64 bs with
  | some n => Except.ok n
  | none => Except.error RedisCommandError.InvalidDuration

/-- Modelled from the spec: `Expiry::new_from_secs` converts a relative
duration in seconds into an absolute instant; a duration whose millisecond
conversion overflows the representable range fails construction. -/
def newFromSecs (now : Nat) (d : Nat) : Except RedisCommandError Expiry :=
  if d * 1000 < 2 ^ 64 then Except.ok (now + d * 1000)
  else Except.error RedisCommandError.InvalidDuration

/-- Modelled from the spec: `Expiry::new_from_millis`, milliseconds
granularity. -/
def newFromMillis (now : Nat) (d : Nat) : Except RedisCommandError Expiry :=
  Except.ok (now + d)

/-- Pair extraction for `MSET`/`MSETNX` (`chunks_exact(2)` over the tokens
after the keyword, each component put through `get_bytes_vec`). The
odd-remainder case is unreachable behind the even-length guard in `parse`. -/
def collectPairs : List Resp → Except RedisCommandError (List (Key × Value))
  | [] => Except.ok []
  | k :: v :: rest => do
    let kb ← get_bytes_vec (some k)
    let vb ← get_bytes_vec (some v)
    let tail ← collectPairs rest
    pure ((kb, vb) :: tail)
  | [_] => Except.error RedisCommandError.ArgNumber

/-- Key extraction for `MGET`: each token after the keyword through
`get_bytes_vec`. -/
def collectKeys : List Resp → Except RedisCommandError (List Key)
  | [] => Except.ok []
  | k :: rest => do
    let kb ← get_bytes_vec (some k)
    let tail ← collectKeys rest
    pure (kb :: tail)

instance {ε α : Type} [DecidableEq ε] [DecidableEq α] :
    DecidableEq (Except ε α) := fun x y =>
  match x, y with
  | Except.ok a, Except.ok b =>
    if h : a = b then isTrue (by rw [h]) else isFalse (by simp [h])
  | Except.error a, Except.error b =>
    if h : a = b then isTrue (by rw [h]) else isFalse (by simp [h])
  | Except.ok _, Except.error _ => isFalse (by simp)
  | Except.error _, Except.ok _ => isFalse (by simp)

/-- `Command::parse` from `command/mod.rs`. The outer `Option` models the
panic in the `NotSupported` arm: the Rust code calls
`std::str::from_utf8(unsupported_command).unwrap()`, which aborts when the
unrecognized keyword's bytes are not valid UTF-8 (`none` here). `now` is the
clock reading used by expiry construction in the `SETEX`/`PSETEX`/`EXPIRE`/
`PEXPIRE` arms. -/
def Command.parse (now : Nat) (v : List Resp) :
    Option (Except RedisCommandError Command) :=
  match v with
  | Resp.BulkString command :: _ =>
    if command = bts "SET" ∨ command = bts "set" ∨ command = bts "Set" then
      some (do
        let key ← get_bytes_vec (v.get? 1)
        let value ← get_bytes_vec (v.get? 2)
        pure (Command.Set key value))
    else if command = bts "SETEX" ∨ command = bts "setex" ∨
        command = bts "SetEx" ∨ command = bts "Setex" then
      some (do
        let key ← get_bytes_vec (v.get? 1)
        let duration ← get_bytes_vec (v.get? 2) >>= parse_duration
        let value ← get_bytes_vec (v.get? 3)
        let expiry ← newFromSecs now duration
        pure (Command.Setex key expiry value))
    else if command = bts "PSETEX" ∨ command = bts "psetex" ∨
        command = bts "PSetEx" ∨ command = bts "PSetex" then
      some (do
        let key ← get_bytes_vec (v.get? 1)
        let duration ← get_bytes_vec (v.get? 2) >>= parse_duration
        let value ← get_bytes_vec (v.get? 3)
        let expiry ← newFromMillis now duration
        pure (Command.PSetex key expiry value))
    else if command = bts "MSET" ∨ command = bts "MSet" ∨ command = bts "mset" then
      some (do
        let pairs := v.drop 1
        if pairs.isEmpty ∨ pairs.length % 2 ≠ 0 then
          Except.error RedisCommandError.ArgNumber
        else do
          let items ← collectPairs pairs
          pure (Command.MSet items))
    else if command = bts "MSETNX" ∨ command = bts "MSetnx" ∨
        command = bts "msetnx" then
      some (do
        let pairs := v.drop 1
        if pairs.isEmpty ∨ pairs.length % 2 ≠ 0 then
          Except.error RedisCommandError.ArgNumber
        else do
          let items ← collectPairs pairs
          pure (Command.MSetnx items))
    else if command = bts "SETNX" ∨ command = bts "setnx" ∨
        command = bts "Setnx" then
      some (do
        let key ← get_bytes_vec (v.get? 1)
        let value ← get_bytes_vec (v.get? 2)
        pure (Command.Setnx key value))
    else if command = bts "EXPIRE" ∨ command = bts "expire" ∨
        command = bts "Expire" then
      some (do
        let key ← get_bytes_vec (v.get? 1)
        let duration ← get_bytes_vec (v.get? 2) >>= parse_duration
        let expiry ← newFromSecs now duration
        pure (Command.Expire key expiry))
    else if command = bts "PEXPIRE" ∨ command = bts "Pexpire" ∨
        command = bts "PExpire" ∨ command = bts "pexpire" then
      some (do
        let key ← get_bytes_vec (v.get? 1)
        let duration ← get_bytes_vec (v.get? 2) >>= parse_duration
        let expiry ← newFromMillis now duration
        pure (Command.PExpire key expiry))
    else if command = bts "GET" ∨ command = bts "get" ∨ command = bts "Get" then
      some (do
        let key ← get_bytes_vec (v.get? 1)
        pure (Command.Get key))
    else if command = bts "GETSET" ∨ command = bts "getset" ∨
        command = bts "Getset" ∨ command = bts "GetSet" then
      some (do
        let key ← get_bytes_vec (v.get? 1)
        let value ← get_bytes_vec (v.get? 2)
        pure (Command.GetSet key value))
    else if command = bts "MGET" ∨ command = bts "mget" ∨ command = bts "MGet" then
      some (do
        let keys := v.drop 1
        if keys.isEmpty then Except.error RedisCommandError.ArgNumber
        else do
          let ks ← collectKeys keys
          pure (Command.MGet ks))
    else if command = bts "DEL" ∨ command = bts "del" ∨ command = bts "Del" then
      some (do
        let key ← get_bytes_vec (v.get? 1)
        pure (Command.Del key))
    else if command = bts "INCR" ∨ command = bts "incr" ∨ command = bts "Incr" then
      some (do
        let key ← get_bytes_vec (v.get? 1)
        pure (Command.Incr key))
    else if command = bts "EXISTS" ∨ command = bts "exists" ∨
        command = bts "Exists" then
      some (do
        let key ← get_bytes_vec (v.get? 1)
        pure (Command.Exists key))
    else if command = bts "INFO" ∨ command = bts "info" ∨ command = bts "Info" then
      some (Except.ok Command.Info)
    else if command = bts "PING" ∨ command = bts "ping" ∨ command = bts "Ping" then
      some (Except.ok Command.Ping)
    else if command = bts "QUIT" ∨ command = bts "quit" ∨ command = bts "Quit" then
      some (Except.ok Command.Quit)
    else if validUtf8 command then
      some (Except.error (RedisCommandError.NotSupported command))
    else
      none
  | _ => some (Except.error RedisCommandError.InvalidCommand)

/-- Modelled from the spec (§4.3): one storage entry, its value and optional
absolute expiry instant (the in-memory backend is not among the analysed
sources; `storage/mod.rs` only fixes the `Storage` trait). -/
structure Entry where
  value : Value
  expiry : Option Nat
  deriving DecidableEq, Repr

/-- Modelled from the spec: the in-memory backend, an associative structure
keyed by exact byte sequence. -/
abbrev Store := List (Key × Entry)

/-- Modelled from the spec: an entry is visible at instant `now` when it has
no expiry or its expiry has not yet elapsed. -/
def visibleAt (now : Nat) (e : Entry) : Bool :=
  match e.expiry with
  | none => true
  | some t => now < t

/-- First entry stored under `k`, ignoring expiry. -/
def lookupStore : Store → Key → Option Entry
  | [], _ => none
  | (k', e) :: t, k => if k' = k then some e else lookupStore t k

/-- Modelled from the spec (§4.2 `write`, §4.3): inserts or overwrites the
value. An elapsed expiry is observed by the precondition check before
write-family commands, so a dead entry is replaced by a fresh one without
expiry, while a still-live expiry is kept (expiry is independent of `write`). -/
def write (now : Nat) : Store → Key → Value → Store
  | [], k, v => [(k, ⟨v, none⟩)]
  | (k', e) :: t, k, v =>
    if k' = k then
      if visibleAt now e then (k', ⟨v, e.expiry⟩) :: t
      else (k', ⟨v, none⟩) :: t
    else (k', e) :: write now t k v

/-- Modelled from the spec (§4.2 `read`): the value when the key exists and
has not expired, else absent. Lazy expiration is pure invisibility here:
with time monotone, an elapsed entry can never become visible again, which
realises the spec's "at minimum its permanent invisibility". -/
def read (now : Nat) (s : Store) (k : Key) : Option Value :=
  match lookupStore s k with
  | some e => if visibleAt now e then some e.value else none
  | none => none

/-- Modelled from the spec (§4.2 `contains`): expiry-aware existence with the
same visibility as `read`. -/
def contains (now : Nat) (s : Store) (k : Key) : Bool :=
  (read now s k).isSome

/-- Modelled from the spec (§4.2 `remove`): deletes the key if present and
returns the count of deletions (0 or 1). -/
def remove : Store → Key → Store × Nat
  | [], _ => ([], 0)
  | (k', e) :: t, k =>
    if k' = k then (t, 1)
    else
      let (t', n) := remove t k
      ((k', e) :: t', n)

/-- Modelled from the spec (§4.2 `expire`): associates the expiry with the key
if it currently (visibly) exists, returning 1 when applied and 0 otherwise. -/
def expire (now : Nat) : Store → Key → Expiry → Store × Nat
  | [], _, _ => ([], 0)
  | (k', e) :: t, k, x =>
    if k' = k then
      if visibleAt now e then ((k', ⟨e.value, some x⟩) :: t, 1)
      else ((k', e) :: t, 0)
    else
      let (t', n) := expire now t k x
      ((k', e) :: t', n)

/-- Sequential writes of a batch of pairs, in positional order
(`items.iter().for_each(|(k, v)| storage.write(k, v))`). -/
def writeAll (now : Nat) (s : Store) (items : List (Key × Value)) : Store :=
  items.foldl (fun acc kv => write now acc kv.1 kv.2) s

/-- Modelled from the spec: `protocol::OK`, the fixed success acknowledgment
`+OK` terminated by CRLF (the `protocol` module is not among the analysed
sources). -/
def okReply : List Nat := bts "+OK\r\n"

/-- Modelled from the spec: `protocol::NIL`, the fixed nil literal (the form
the engine itself writes inline for absent `MGET` elements). -/
def nilReply : List Nat := bts "$-1\r\n"

/-- Modelled from the spec: `protocol::PONG`, the fixed `PING`
acknowledgment. -/
def pongReply : List Nat := bts "+PONG\r\n"

/-- Modelled from the spec: `protocol::EMPTY_LIST`, the empty array reply. -/
def emptyListReply : List Nat := bts "*0\r\n"

/-- The exact `INCR` type-mismatch reply bytes of `run_command.rs`: note the
literal ends in two closing-brace bytes and has no CRLF terminator. -/
def wrongTypeReply : List Nat :=
  bts "-WRONGTYPE Operation against a key holding the wrong kind of value\x7d\x7d"

/-- Integer reply `:<n>` terminated by CRLF (`format!` with a numeric
argument). -/
def intReply (n : Nat) : List Nat := 58 :: natToDec n ++ crlf

/-- Modelled from the spec: the `Display` text of a parse error, embedded by
the engine into `-ERR <message>` (the `command_error` module is not among the
analysed sources; no claim depends on the exact wording). -/
def errMessage : RedisCommandError → List Nat
  | RedisCommandError.ArgNumber => bts "wrong number of arguments"
  | RedisCommandError.NotSupported name => bts "command not supported: " ++ name
  | RedisCommandError.InvalidCommand => bts "invalid command"
  | RedisCommandError.InvalidBulk => bts "invalid or absent bulk value"
  | RedisCommandError.InvalidDuration => bts "invalid duration"

/-- Reply lines of `MGET`, one per requested key in request order: the value
as `+<text>` CRLF when present, the inline nil literal `$-1` CRLF otherwise.
`none` models the panic of `from_utf8(value).unwrap()` on a stored value that
is not valid UTF-8. -/
def mgetLines (now : Nat) (s : Store) : List Key → Option (List Nat)
  | [] => some []
  | k :: t =>
    match read now s k with
    | some value =>
      if validUtf8 value then
        (mgetLines now s t).map fun r => 43 :: value ++ crlf ++ r
      else none
    | none => (mgetLines now s t).map fun r => bts "$-1\r\n" ++ r

/-- `run_command_and_get_response` from `server/util/run_command.rs`, given
the result of `get_command` (parsing) and exclusive access to the storage for
the whole command. The state passing makes the single exclusive-access window
explicit: the function maps the pre-state to the post-state and the response
bytes. The outer `Option` models a panic (`none`): the engine calls
`std::str::from_utf8(value).unwrap()` on stored values in the `Get`, `GetSet`,
`MGet` and `Incr` arms. `i64` increment overflow wraps (release profile). The
Rust function also returns `command.ok()` for connection-lifecycle decisions
(`Quit`); that projection of the input is omitted here. -/
def run_command_and_get_response (now : Nat) (s : Store)
    (command : Except RedisCommandError Command) :
    Option (Store × List Nat) :=
  match command with
  | Except.ok c =>
    match c with
    | Command.Set k v => some (write now s k v, okReply)
    | Command.Setex k x v | Command.PSetex k x v =>
      let s1 := write now s k v
      let (s2, _) := expire now s1 k x
      some (s2, okReply)
    | Command.Setnx k v =>
      match contains now s k with
      | true => some (s, bts ":0\r\n")
      | false => some (write now s k v, bts ":1\r\n")
    | Command.MSet items => some (writeAll now s items, okReply)
    | Command.MSetnx items =>
      match items.all fun kv => !contains now s kv.1 with
      | true => some (writeAll now s items, bts ":1\r\n")
      | false => some (s, bts ":0\r\n")
    | Command.Expire k x | Command.PExpire k x =>
      let (s', n) := expire now s k x
      some (s', intReply n)
    | Command.Get k =>
      match read now s k with
      | some value =>
        if validUtf8 value then some (s, 43 :: value ++ crlf) else none
      | none => some (s, nilReply)
    | Command.GetSet k v =>
      match read now s k with
      | some value =>
        if validUtf8 value then
          some (write now s k v, 43 :: value ++ crlf)
        else none
      | none => some (write now s k v, nilReply)
    | Command.MGet keys =>
      (mgetLines now s keys).map fun lines =>
        (s, 42 :: natToDec keys.length ++ crlf ++ lines)
    | Command.Del k =>
      let (s', n) := remove s k
      some (s', intReply n)
    | Command.Incr k =>
      match read now s k with
      | some value =>
        if validUtf8 value then
          match parseI64 value with
          | some intVal =>
            let newVal := wrapI64 (intVal + 1)
            some (write now s k (intToDec newVal), 58 :: intToDec newVal ++ crlf)
          | none => some (s, wrongTypeReply)
        else none
      | none => some (write now s k (bts "1"), bts ":1\r\n")
    | Command.Exists k =>
      let n : Nat := match contains now s k with | true => 1 | false => 0
      some (s, intReply n)
    | Command.Info => some (s, emptyListReply)
    | Command.Ping => some (s, pongReply)
    | Command.Quit => some (s, okReply)
  | Except.error err => some (s, bts "-ERR " ++ errMessage err ++ crlf)

/-- Repeated execution of `Incr` on the same key: state after `n` executions
and the response of the `n`-th (the response component of `incrN _ _ _ 0` is a
placeholder). `none` as soon as any execution panics. -/
def incrN (now : Nat) (s : Store) (k : Key) : Nat → Option (Store × List Nat)
  | 0 => some (s, [])
  | n + 1 =>
    match incrN now s k n with
    | some (s', _) => run_command_and_get_response now s' (Except.ok (Command.Incr k))
    | none => none

/-- Powers of ten used to state the decimal round-trip: `tens n` is
`10 ^ (number of decimal digits of n)`. -/
def tens (n : Nat) : Nat :=
  if n < 10 then 10 else 10 * tens (n / 10)
termination_by n
decreasing_by exact Nat.div_lt_self (by omega) (by omega)

theorem read_lookup_none {now : Nat} {s : Store} {k : Key}
    (h : lookupStore s k = none) : read now s k = none := by
  simp [read, h]

theorem lookup_write (now : Nat) (s : Store) (k : Key) (v : Value) :
    ∃ ex, lookupStore (write now s k v) k = some ⟨v, ex⟩ ∧
      visibleAt now ⟨v, ex⟩ = true := by
  induction s with
  | nil => exact ⟨none, by simp [write, lookupStore], by simp [visibleAt]⟩
  | cons hd t ih =>
    obtain ⟨k', e⟩ := hd
    by_cases hk : k' = k
    · subst hk
      by_cases hv : visibleAt now e = true
      · exact ⟨e.expiry, by simp [write, hv, lookupStore], by
          cases e; simpa [visibleAt] using hv⟩
      · exact ⟨none, by simp [write, hv, lookupStore], by simp [visibleAt]⟩
    · obtain ⟨ex, h1, h2⟩ := ih
      exact ⟨ex, by simp [write, hk, lookupStore, h1], h2⟩

theorem read_write_self (now : Nat) (s : Store) (k : Key) (v : Value) :
    read now (write now s k v) k = some v := by
  obtain ⟨ex, h1, h2⟩ := lookup_write now s k v
  simp [read, h1, h2]

theorem read_write_of_contains {now now' : Nat} {s : Store} {k : Key}
    {v : Value} (h : contains now' (write now s k v) k = true) :
    read now' (write now s k v) k = some v := by
  obtain ⟨ex, h1, _⟩ := lookup_write now s k v
  simp only [contains, read, h1] at h ⊢
  cases hv : visibleAt now' ⟨v, ex⟩ <;> simp [hv] at h ⊢

theorem write_write (now : Nat) (s : Store) (k : Key) (v v' : Value) :
    write now (write now s k v) k v' = write now s k v' := by
  induction s with
  | nil => simp [write, visibleAt]
  | cons hd t ih =>
    obtain ⟨k', e⟩ := hd
    by_cases hk : k' = k
    · subst hk
      by_cases hv : visibleAt now e = true
      · have h2 : visibleAt now ⟨v, e.expiry⟩ = true := by
          cases e; simpa [visibleAt] using hv
        simp [write, hv, h2]
      · have h2 : visibleAt now (⟨v, none⟩ : Entry) = true := by simp [visibleAt]
        simp [write, hv, h2]
    · simp [write, hk, ih]

theorem decDigits_length (f : Nat) :
    ∀ n acc, acc.length ≤ (decDigits f n acc).length := by
  induction f with
  | zero => intro n acc; simp [decDigits]
  | succ f ih =>
    intro n acc
    by_cases h : n < 10
    · simp [decDigits, h]
    · simpa [decDigits, h] using
        Nat.le_trans (by simp) (ih (n / 10) ((n % 10 + 48) :: acc))

theorem natToDec_ne_nil (n : Nat) : natToDec n ≠ [] := by
  have h : 1 ≤ (natToDec n).length := by
    rw [natToDec]
    by_cases h10 : n < 10
    · simp [decDigits, h10]
    · rw [show decDigits (n + 1) n [] = decDigits n (n / 10) [n % 10 + 48] by
        simp [decDigits, h10]]
      simpa using decDigits_length n (n / 10) [n % 10 + 48]
  intro hc
  rw [hc] at h
  simp at h

theorem decDigits_mem (f : Nat) :
    ∀ n acc, (∀ b ∈ acc, 48 ≤ b ∧ b ≤ 57) →
      ∀ b ∈ decDigits f n acc, 48 ≤ b ∧ b ≤ 57 := by
  induction f with
  | zero => intro n acc hacc; simpa [decDigits] using hacc
  | succ f ih =>
    intro n acc hacc b hb
    by_cases h : n < 10
    · simp [decDigits, h] at hb
      rcases hb with hb | hb
      · omega
      · exact hacc b hb
    · refine ih (n / 10) ((n % 10 + 48) :: acc) ?_ b (by simpa [decDigits, h] using hb)
      intro c hc
      simp at hc
      rcases hc with hc | hc
      · have := Nat.mod_lt n (show 0 < 10 by omega)
        omega
      · exact hacc c hc

theorem natToDec_mem (n : Nat) : ∀ b ∈ natToDec n, 48 ≤ b ∧ b ≤ 57 :=
  decDigits_mem (n + 1) n [] (by simp)

theorem tens_of_lt {n : Nat} (h : n < 10) : tens n = 10 := by
  rw [tens]; simp [h]

theorem tens_of_ge {n : Nat} (h : ¬ n < 10) : tens n = 10 * tens (n / 10) := by
  conv_lhs => rw [tens]
  simp [h]

theorem parseDigitsAux_decDigits (f : Nat) :
    ∀ n a acc, n < 10 ^ (f + 1) →
      parseDigitsAux a (decDigits (f + 1) n acc) =
        parseDigitsAux (a * tens n + n) acc := by
  induction f with
  | zero =>
    intro n a acc hn
    have h10 : n < 10 := by simpa using hn
    simp [decDigits, h10, parseDigitsAux, tens_of_lt h10]
    omega
  | succ f ih =>
    intro n a acc hn
    by_cases h10 : n < 10
    · simp [decDigits, h10, parseDigitsAux, tens_of_lt h10]
      omega
    · have hdiv : n / 10 < 10 ^ (f + 1) := by
        rw [Nat.div_lt_iff_lt_mul (by omega)]
        calc n < 10 ^ (f + 1 + 1) := hn
          _ = 10 ^ (f + 1) * 10 := by ring
      have hmod : n % 10 < 10 := Nat.mod_lt n (by omega)
      rw [show decDigits (f + 1 + 1) n acc =
            decDigits (f + 1) (n / 10) ((n % 10 + 48) :: acc) by
          simp [decDigits, h10]]
      rw [ih (n / 10) a ((n % 10 + 48) :: acc) hdiv]
      rw [show parseDigitsAux (a * tens (n / 10) + n / 10) ((n % 10 + 48) :: acc) =
            parseDigitsAux ((a * tens (n / 10) + n / 10) * 10 + (n % 10 + 48 - 48))
              acc by simp [parseDigitsAux]; omega]
      congr 1
      rw [tens_of_ge h10]
      have hdm : 10 * (n / 10) + n % 10 = n := Nat.div_add_mod n 10
      have : (a * tens (n / 10) + n / 10) * 10 + (n % 10 + 48 - 48) =
          a * tens (n / 10) * 10 + (10 * (n / 10) + n % 10) := by ring_nf; omega
      rw [this, hdm]
      ring

theorem parseNat_natToDec (n : Nat) : parseNatCore (natToDec n) = some n := by
  have hlt : n < 10 ^ (n + 1) := by
    calc n < 10 ^ n := Nat.lt_pow_self (by omega) n
      _ ≤ 10 ^ (n + 1) := Nat.pow_le_pow_right (by omega) (by omega)
  have hmain := parseDigitsAux_decDigits n n 0 [] hlt
  rcases hd : natToDec n with _ | ⟨b, t⟩
  · exact absurd hd (natToDec_ne_nil n)
  · rw [show parseNatCore (b :: t) = parseDigitsAux 0 (b :: t) from rfl, ← hd]
    rw [natToDec] at hd ⊢
    rw [hmain]
    simp [parseDigitsAux]

theorem parseI64_natToDec {n : Nat} (h : n ≤ 2 ^ 63 - 1) :
    parseI64 (natToDec n) = some (n : Int) := by
  rcases hd : natToDec n with _ | ⟨b, t⟩
  · exact absurd hd (natToDec_ne_nil n)
  · have hb : 48 ≤ b ∧ b ≤ 57 := natToDec_mem n b (by rw [hd]; simp)
    have h43 : ¬ b = 43 := by omega
    have h45 : ¬ b = 45 := by omega
    have hp : parseNatCore (b :: t) = some n := by rw [← hd]; exact parseNat_natToDec n
    have h' : n ≤ 9223372036854775807 := by omega
    simp [parseI64, h43, h45, hp, h']

theorem intToDec_cast (n : Nat) : intToDec (n : Int) = natToDec n := by
  simp [intToDec]

theorem wrapI64_eq {z : Int} (h1 : -(2 ^ 63) ≤ z) (h2 : z ≤ 2 ^ 63 - 1) :
    wrapI64 z = z := by
  rw [wrapI64, Int.emod_eq_of_lt (by omega) (by omega)]
  omega

theorem validUtf8_ascii : ∀ l : List Nat, (∀ b ∈ l, b ≤ 127) →
    validUtf8 l = true := by
  intro l
  induction l with
  | nil => intro _; rfl
  | cons b t ih =>
    intro h
    have hb : b ≤ 127 := h b (by simp)
    have ht := ih fun c hc => h c (by simp [hc])
    rw [validUtf8] at ht ⊢
    simpa [validUtf8Go, hb] using ht

theorem validUtf8_natToDec (n : Nat) : validUtf8 (natToDec n) = true :=
  validUtf8_ascii _ fun b hb => by have := natToDec_mem n b hb; omega

theorem incrN_zero (now : Nat) (s : Store) (k : Key) :
    incrN now s k 0 = some (s, []) := rfl

theorem incrN_succ (now : Nat) (s : Store) (k : Key) (n : Nat) :
    incrN now s k (n + 1) =
      match incrN now s k n with
      | some (s', _) =>
        run_command_and_get_response now s' (Except.ok (Command.Incr k))
      | none => none := rfl

theorem incrN_spec (now : Nat) (s : Store) (k : Key)
    (hk : lookupStore s k = none) :
    ∀ n, 1 ≤ n → n ≤ 2 ^ 63 - 1 →
      incrN now s k n =
        some (write now s k (natToDec n), 58 :: natToDec n ++ crlf) := by
  intro n hn
  induction n, hn using Nat.le_induction with
  | base =>
    intro _
    have hr : read now s k = none := read_lookup_none hk
    rw [incrN_succ, incrN_zero]
    simp only [run_command_and_get_response, hr]
    rw [show (bts "1" : List Nat) = natToDec 1 by decide,
      show (bts ":1\r\n" : List Nat) = 58 :: natToDec 1 ++ crlf by decide]
  | succ n hn1 ih =>
    intro hle
    have hnle : n ≤ 2 ^ 63 - 1 := by omega
    rw [incrN_succ, ih hnle]
    have hr := read_write_self now s k (natToDec n)
    simp only [run_command_and_get_response, hr, validUtf8_natToDec,
      if_true, parseI64_natToDec hnle]
    have hwrap : wrapI64 ((n : Int) + 1) = ((n + 1 : Nat) : Int) := by
      have hcast : (n : Int) + 1 = ((n + 1 : Nat) : Int) := by push_cast; ring
      rw [hcast]
      refine wrapI64_eq (by omega) ?_
      have : (n + 1 : Nat) ≤ 2 ^ 63 - 1 := hle
      omega
    rw [hwrap, intToDec_cast, write_write]

example :
    Command.parse 0 [Resp.BulkString (bts "get"), Resp.BulkString (bts "k")] =
      some (Except.ok (Command.Get (bts "k"))) := by decide
example :
    Command.parse 0 [Resp.BulkString (bts "gEt"), Resp.BulkString (bts "k")] =
      some (Except.error (RedisCommandError.NotSupported (bts "gEt"))) := by decide
example : Command.parse 0 [Resp.BulkString [255]] = none := by decide
example : Command.parse 0 [] = some (Except.error RedisCommandError.InvalidCommand) := by
  decide
example :
    Command.parse 7 [Resp.BulkString (bts "SETEX"), Resp.BulkString (bts "k"),
      Resp.BulkString (bts "2"), Resp.BulkString (bts "v")] =
      some (Except.ok (Command.Setex (bts "k") 2007 (bts "v"))) := by decide
example :
    Command.parse 0 [Resp.BulkString (bts "MSET"), Resp.BulkString (bts "k")] =
      some (Except.error RedisCommandError.ArgNumber) := by decide

example : bts "SET" = [83, 69, 84] := by decide
example : validUtf8 [255] = false := by decide
example : validUtf8 [104, 105] = true := by decide
example : natToDec 0 = [48] := by decide
example : natToDec 1234 = [49, 50, 51, 52] := by decide
example : parseI64 (bts "-12") = some (-12) := by decide
example : parseI64 (bts "abc") = none := by decide
example : parseI64 (natToDec (2 ^ 63 - 1)) = some (2 ^ 63 - 1) := by decide
example : parseI64 (natToDec (2 ^ 63)) = none := by decide
example : wrapI64 (2 ^ 63) = -(2 ^ 63) := by decide
example : intToDec (-(2 ^ 63)) = bts "-9223372036854775808" := by decide

example :
    run_command_and_get_response 0 [] (Except.ok (Command.Set [107] [120])) =
      some ([([107], ⟨[120], none⟩)], okReply) := by decide
example :
    run_command_and_get_response 0 [([107], ⟨[120], none⟩)]
      (Except.ok (Command.MGet [[107], [108]])) =
      some ([([107], ⟨[120], none⟩)], bts "*2\r\n+x\r\n$-1\r\n") := by decide
example :
    run_command_and_get_response 5 [] (Except.ok (Command.Setex [107] 1005 [120])) =
      some ([([107], ⟨[120], some 1005⟩)], okReply) := by decide
example : read 1004 [([107], Entry.mk [120] (some 1005))] [107] = some [120] := by
  decide
example : read 1005 [([107], Entry.mk [120] (some 1005))] [107] = none := by decide
example :
    run_command_and_get_response 0 [([107], ⟨[49], none⟩)]
      (Except.ok (Command.Incr [107])) =
      some ([([107], ⟨[50], none⟩)], bts ":2\r\n") := by decide
example :
    run_command_and_get_response 0 []
      (Except.error (RedisCommandError.NotSupported (bts "FOO"))) =
      some ([], bts "-ERR command not supported: FOO\r\n") := by decide

/--
C1: the claim that keyword matching is case-insensitive fails on the code:
`Command::parse` matches each keyword only against the finitely many casings
listed in its `match` arms. The casing `gEt` is not among them, so it parses
to `NotSupported("gEt")` while `get` parses to a `Get` command.
-/
theorem C1_counterexample :
    Command.parse 0 [Resp.BulkString (bts "gEt"), Resp.BulkString (bts "k")] =
      some (Except.error (RedisCommandError.NotSupported (bts "gEt"))) ∧
    Command.parse 0 [Resp.BulkString (bts "get"), Resp.BulkString (bts "k")] =
      some (Except.ok (Command.Get (bts "k"))) := by decide

/--
C1 (amended): keyword matching accepts exactly the casings listed in the
source's match arms — for each command its all-uppercase, all-lowercase and
capitalized spelling, plus the extra mixed spellings `SetEx`, `PSetEx`,
`Pexpire`, `Getset`/`GetSet` — and all listed casings of a keyword parse
identically (same resulting command or error, for every list of remaining
tokens and every clock reading); any other casing, such as `gEt`, yields
`NotSupported`.
-/
theorem C1_keyword_casings (now : Nat) (rest : List Resp) :
    (Command.parse now (Resp.BulkString (bts "set") :: rest) =
        Command.parse now (Resp.BulkString (bts "SET") :: rest) ∧
      Command.parse now (Resp.BulkString (bts "Set") :: rest) =
        Command.parse now (Resp.BulkString (bts "SET") :: rest)) ∧
    (Command.parse now (Resp.BulkString (bts "setex") :: rest) =
        Command.parse now (Resp.BulkString (bts "SETEX") :: rest) ∧
      Command.parse now (Resp.BulkString (bts "SetEx") :: rest) =
        Command.parse now (Resp.BulkString (bts "SETEX") :: rest) ∧
      Command.parse now (Resp.BulkString (bts "Setex") :: rest) =
        Command.parse now (Resp.BulkString (bts "SETEX") :: rest)) ∧
    (Command.parse now (Resp.BulkString (bts "psetex") :: rest) =
        Command.parse now (Resp.BulkString (bts "PSETEX") :: rest) ∧
      Command.parse now (Resp.BulkString (bts "PSetEx") :: rest) =
        Command.parse now (Resp.BulkString (bts "PSETEX") :: rest) ∧
      Command.parse now (Resp.BulkString (bts "PSetex") :: rest) =
        Command.parse now (Resp.BulkString (bts "PSETEX") :: rest)) ∧
    (Command.parse now (Resp.BulkString (bts "MSet") :: rest) =
        Command.parse now (Resp.BulkString (bts "MSET") :: rest) ∧
      Command.parse now (Resp.BulkString (bts "mset") :: rest) =
        Command.parse now (Resp.BulkString (bts "MSET") :: rest)) ∧
    (Command.parse now (Resp.BulkString (bts "MSetnx") :: rest) =
        Command.parse now (Resp.BulkString (bts "MSETNX") :: rest) ∧
      Command.parse now (Resp.BulkString (bts "msetnx") :: rest) =
        Command.parse now (Resp.BulkString (bts "MSETNX") :: rest)) ∧
    (Command.parse now (Resp.BulkString (bts "setnx") :: rest) =
        Command.parse now (Resp.BulkString (bts "SETNX") :: rest) ∧
      Command.parse now (Resp.BulkString (bts "Setnx") :: rest) =
        Command.parse now (Resp.BulkString (bts "SETNX") :: rest)) ∧
    (Command.parse now (Resp.BulkString (bts "expire") :: rest) =
        Command.parse now (Resp.BulkString (bts "EXPIRE") :: rest) ∧
      Command.parse now (Resp.BulkString (bts "Expire") :: rest) =
        Command.parse now (Resp.BulkString (bts "EXPIRE") :: rest)) ∧
    (Command.parse now (Resp.BulkString (bts "Pexpire") :: rest) =
        Command.parse now (Resp.BulkString (bts "PEXPIRE") :: rest) ∧
      Command.parse now (Resp.BulkString (bts "PExpire") :: rest) =
        Command.parse now (Resp.BulkString (bts "PEXPIRE") :: rest) ∧
      Command.parse now (Resp.BulkString (bts "pexpire") :: rest) =
        Command.parse now (Resp.BulkString (bts "PEXPIRE") :: rest)) ∧
    (Command.parse now (Resp.BulkString (bts "get") :: rest) =
        Command.parse now (Resp.BulkString (bts "GET") :: rest) ∧
      Command.parse now (Resp.BulkString (bts "Get") :: rest) =
        Command.parse now (Resp.BulkString (bts "GET") :: rest)) ∧
    (Command.parse now (Resp.BulkString (bts "getset") :: rest) =
        Command.parse now (Resp.BulkString (bts "GETSET") :: rest) ∧
      Command.parse now (Resp.BulkString (bts "Getset") :: rest) =
        Command.parse now (Resp.BulkString (bts "GETSET") :: rest) ∧
      Command.parse now (Resp.BulkString (bts "GetSet") :: rest) =
        Command.parse now (Resp.BulkString (bts "GETSET") :: rest)) ∧
    (Command.parse now (Resp.BulkString (bts "mget") :: rest) =
        Command.parse now (Resp.BulkString (bts "MGET") :: rest) ∧
      Command.parse now (Resp.BulkString (bts "MGet") :: rest) =
        Command.parse now (Resp.BulkString (bts "MGET") :: rest)) ∧
    (Command.parse now (Resp.BulkString (bts "del") :: rest) =
        Command.parse now (Resp.BulkString (bts "DEL") :: rest) ∧
      Command.parse now (Resp.BulkString (bts "Del") :: rest) =
        Command.parse now (Resp.BulkString (bts "DEL") :: rest)) ∧
    (Command.parse now (Resp.BulkString (bts "incr") :: rest) =
        Command.parse now (Resp.BulkString (bts "INCR") :: rest) ∧
      Command.parse now (Resp.BulkString (bts "Incr") :: rest) =
        Command.parse now (Resp.BulkString (bts "INCR") :: rest)) ∧
    (Command.parse now (Resp.BulkString (bts "exists") :: rest) =
        Command.parse now (Resp.BulkString (bts "EXISTS") :: rest) ∧
      Command.parse now (Resp.BulkString (bts "Exists") :: rest) =
        Command.parse now (Resp.BulkString (bts "EXISTS") :: rest)) ∧
    (Command.parse now (Resp.BulkString (bts "info") :: rest) =
        Command.parse now (Resp.BulkString (bts "INFO") :: rest) ∧
      Command.parse now (Resp.BulkString (bts "Info") :: rest) =
        Command.parse now (Resp.BulkString (bts "INFO") :: rest)) ∧
    (Command.parse now (Resp.BulkString (bts "ping") :: rest) =
        Command.parse now (Resp.BulkString (bts "PING") :: rest) ∧
      Command.parse now (Resp.BulkString (bts "Ping") :: rest) =
        Command.parse now (Resp.BulkString (bts "PING") :: rest)) ∧
    (Command.parse now (Resp.BulkString (bts "quit") :: rest) =
        Command.parse now (Resp.BulkString (bts "QUIT") :: rest) ∧
      Command.parse now (Resp.BulkString (bts "Quit") :: rest) =
        Command.parse now (Resp.BulkString (bts "QUIT") :: rest)) ∧
    Command.parse now (Resp.BulkString (bts "gEt") :: rest) =
      some (Except.error (RedisCommandError.NotSupported (bts "gEt"))) := by
  exact ⟨⟨rfl, rfl⟩, ⟨rfl, rfl, rfl⟩, ⟨rfl, rfl, rfl⟩, ⟨rfl, rfl⟩, ⟨rfl, rfl⟩,
    ⟨rfl, rfl⟩, ⟨rfl, rfl⟩, ⟨rfl, rfl, rfl⟩, ⟨rfl, rfl⟩, ⟨rfl, rfl, rfl⟩,
    ⟨rfl, rfl⟩, ⟨rfl, rfl⟩, ⟨rfl, rfl⟩, ⟨rfl, rfl⟩, ⟨rfl, rfl⟩, ⟨rfl, rfl⟩,
    ⟨rfl, rfl⟩, rfl⟩

/--
C2: MSetnx is all-or-nothing. If any key of the batch exists (expiry-aware),
the execution leaves storage unchanged and replies integer 0; if no key of
the batch exists, it writes every pair in positional order and replies
integer 1.
-/
theorem C2_msetnx_all_or_nothing (now : Nat) (s : Store)
    (items : List (Key × Value)) :
    ((∃ kv ∈ items, contains now s kv.1 = true) →
      run_command_and_get_response now s (Except.ok (Command.MSetnx items)) =
        some (s, bts ":0\r\n")) ∧
    ((∀ kv ∈ items, contains now s kv.1 = false) →
      run_command_and_get_response now s (Except.ok (Command.MSetnx items)) =
        some (writeAll now s items, bts ":1\r\n")) := by
  constructor
  · intro h
    have hall : (items.all fun kv => !contains now s kv.1) = false := by
      obtain ⟨kv, hmem, hc⟩ := h
      have hne : ¬ (items.all fun kv => !contains now s kv.1) = true := by
        rw [List.all_eq_true]
        intro hforall
        have := hforall kv hmem
        simp [hc] at this
      simpa using hne
    simp only [run_command_and_get_response, hall]
  · intro h
    have hall : (items.all fun kv => !contains now s kv.1) = true := by
      simp [List.all_eq_true]
      intro a b hmem
      simpa using h (a, b) hmem
    simp only [run_command_and_get_response, hall]

/--
C2 (witness): a batch whose single key exists replies `:0` and leaves the
store as it was; a batch over an empty store writes both pairs and replies
`:1`.
-/
theorem C2_witness :
    ((∃ kv ∈ [(([107] : Key), ([120] : Value))],
        contains 0 [([107], Entry.mk [118] none)] kv.1 = true) ∧
      run_command_and_get_response 0 [([107], Entry.mk [118] none)]
          (Except.ok (Command.MSetnx [([107], [120])])) =
        some ([([107], Entry.mk [118] none)], bts ":0\r\n")) ∧
    ((∀ kv ∈ [(([107] : Key), ([120] : Value)), ([108], [121])],
        contains 0 [] kv.1 = false) ∧
      run_command_and_get_response 0 []
          (Except.ok (Command.MSetnx [([107], [120]), ([108], [121])])) =
        some (writeAll 0 [] [([107], [120]), ([108], [121])], bts ":1\r\n")) :=
  ⟨⟨by decide,
      (C2_msetnx_all_or_nothing 0 [([107], Entry.mk [118] none)]
        [([107], [120])]).1 (by decide)⟩,
    ⟨by decide,
      (C2_msetnx_all_or_nothing 0 [] [([107], [120]), ([108], [121])]).2
        (by decide)⟩⟩

/--
C3: the claim that parse never aborts is the spec's intent, but the code
panics on it: the `NotSupported` arm of `Command::parse` runs
`std::str::from_utf8(unsupported_command).unwrap()`, which aborts when the
unrecognized first token's bytes are not valid UTF-8. Byte `0xFF` as the
keyword is such an input: parse reaches the `unwrap` and panics (`none`)
instead of returning a `ParseError` value.
-/
theorem C3_parse_panics_on_invalid_utf8 :
    Command.parse 0 [Resp.BulkString [255]] = none := by decide

/--
C4 (amended): for every `n` with `1 ≤ n ≤ 2 ^ 63 - 1`, executing `Incr`
`n` times on a key initially absent from storage leaves the key holding the
decimal string of `n`, and the `n`-th execution replies integer `n`. (The
bound is forced by 64-bit signed arithmetic: at `n = 2 ^ 63` the increment
overflows, see the counterexample.)
-/
theorem C4_incr_repeated (now : Nat) (s : Store) (k : Key) (n : Nat)
    (hk : lookupStore s k = none) (h1 : 1 ≤ n) (h2 : n ≤ 2 ^ 63 - 1) :
    incrN now s k n =
      some (write now s k (natToDec n), 58 :: natToDec n ++ crlf) ∧
    read now (write now s k (natToDec n)) k = some (natToDec n) :=
  ⟨incrN_spec now s k hk n h1 h2, read_write_self now s k (natToDec n)⟩

/--
C4 (witness): three `Incr` executions from an empty store leave the key
holding "3" and reply `:3`.
-/
theorem C4_witness :
    lookupStore [] [107] = none ∧ 1 ≤ 3 ∧ 3 ≤ 2 ^ 63 - 1 ∧
    (incrN 0 [] [107] 3 =
        some (write 0 [] [107] (natToDec 3), 58 :: natToDec 3 ++ crlf) ∧
      read 0 (write 0 [] [107] (natToDec 3)) [107] = some (natToDec 3)) :=
  ⟨rfl, by decide, by decide,
    C4_incr_repeated 0 [] [107] 3 rfl (by decide) (by decide)⟩

/--
C4 (counterexample): the claim quantifies over every `n ≥ 1`, but at
`n = 2 ^ 63` the `n`-th execution wraps 64-bit signed arithmetic: the key is
left holding "-9223372036854775808" (not the decimal string of `2 ^ 63`) and
the reply is `:-9223372036854775808` (not integer `2 ^ 63`).
-/
theorem C4_counterexample :
    incrN 0 [] [107] (2 ^ 63) =
      some (write 0 [] [107] (45 :: natToDec (2 ^ 63)),
        58 :: (45 :: natToDec (2 ^ 63)) ++ crlf) ∧
    (45 :: natToDec (2 ^ 63)) ≠ natToDec (2 ^ 63) ∧
    (58 :: (45 :: natToDec (2 ^ 63)) ++ crlf : List Nat) ≠
      58 :: natToDec (2 ^ 63) ++ crlf := by
  have hstep : incrN 0 [] [107] ((2 ^ 63 - 1) + 1) =
      run_command_and_get_response 0 (write 0 [] [107] (natToDec (2 ^ 63 - 1)))
        (Except.ok (Command.Incr [107])) := by
    rw [incrN_succ,
      incrN_spec 0 [] [107] rfl (2 ^ 63 - 1) (by norm_num) (by norm_num)]
  rw [show (2 ^ 63 : Nat) = (2 ^ 63 - 1) + 1 by norm_num, hstep]
  decide

/--
C5 (amended): for all keys `k` and all values `v` whose bytes are valid
UTF-8 text, after `Set(k, v)` the engine replies `+OK` and, at any instant at
which `k` is still visible (not yet expired), `Get(k)` replies `v` as a
textual bulk reply; `Get` on an absent (or expired) key replies nil. (The
UTF-8 restriction is forced by the engine's reply formatting, see the
counterexample.)
-/
theorem C5_set_then_get (now : Nat) (s : Store) (k : Key) (v : Value)
    (hv : validUtf8 v = true) :
    run_command_and_get_response now s (Except.ok (Command.Set k v)) =
      some (write now s k v, okReply) ∧
    (∀ now', contains now' (write now s k v) k = true →
      run_command_and_get_response now' (write now s k v)
          (Except.ok (Command.Get k)) =
        some (write now s k v, 43 :: v ++ crlf)) ∧
    (∀ (now2 : Nat) (s2 : Store), read now2 s2 k = none →
      run_command_and_get_response now2 s2 (Except.ok (Command.Get k)) =
        some (s2, nilReply)) := by
  refine ⟨rfl, ?_, ?_⟩
  · intro now' h
    have hr := read_write_of_contains h
    simp only [run_command_and_get_response, hr, hv, if_true]
  · intro now2 s2 h
    simp only [run_command_and_get_response, h]

/--
C5 (witness): setting then getting a one-byte ASCII value round-trips, and
getting an absent key replies nil.
-/
theorem C5_witness :
    validUtf8 [120] = true ∧
    run_command_and_get_response 0 [] (Except.ok (Command.Set [107] [120])) =
      some (write 0 [] [107] [120], okReply) ∧
    run_command_and_get_response 0 (write 0 [] [107] [120])
        (Except.ok (Command.Get [107])) =
      some (write 0 [] [107] [120], 43 :: [120] ++ crlf) ∧
    run_command_and_get_response 0 [] (Except.ok (Command.Get [107])) =
      some ([], nilReply) :=
  ⟨by decide, (C5_set_then_get 0 [] [107] [120] (by decide)).1,
    (C5_set_then_get 0 [] [107] [120] (by decide)).2.1 0 (by decide),
    (C5_set_then_get 0 [] [107] [120] (by decide)).2.2 0 [] (by decide)⟩

/--
C5 (counterexample): the claim quantifies over all values, but for the
non-UTF-8 value `[0xFF]` the `Set` succeeds and the subsequent `Get` panics
in `from_utf8(value).unwrap()` (`none`: no reply at all, in particular not a
bulk reply carrying `v`).
-/
theorem C5_counterexample :
    run_command_and_get_response 0 [] (Except.ok (Command.Set [107] [255])) =
      some ([([107], Entry.mk [255] none)], okReply) ∧
    run_command_and_get_response 0 [([107], Entry.mk [255] none)]
      (Except.ok (Command.Get [107])) = none := by decide

/--
C6 (amended): when `Incr` is executed on a key whose stored value is valid
UTF-8 text that does not parse as a signed 64-bit integer, storage is left
completely unchanged (the post-state is the pre-state) and the reply is the
WRONGTYPE type-mismatch error. (The UTF-8 restriction is forced: on a
non-UTF-8 stored value the engine panics before replying, see the
counterexample.)
-/
theorem C6_incr_wrongtype (now : Nat) (s : Store) (k : Key) (v : Value)
    (hr : read now s k = some v) (hutf : validUtf8 v = true)
    (hp : parseI64 v = none) :
    run_command_and_get_response now s (Except.ok (Command.Incr k)) =
      some (s, wrongTypeReply) := by
  simp only [run_command_and_get_response, hr, hutf, if_true, hp]

/--
C6 (witness): `Incr` on a key holding "abc" leaves the store untouched and
replies WRONGTYPE.
-/
theorem C6_witness :
    read 0 [([107], Entry.mk (bts "abc") none)] [107] = some (bts "abc") ∧
    validUtf8 (bts "abc") = true ∧ parseI64 (bts "abc") = none ∧
    run_command_and_get_response 0 [([107], Entry.mk (bts "abc") none)]
        (Except.ok (Command.Incr [107])) =
      some ([([107], Entry.mk (bts "abc") none)], wrongTypeReply) :=
  ⟨by decide, by decide, by decide,
    C6_incr_wrongtype 0 [([107], Entry.mk (bts "abc") none)] [107] (bts "abc")
      (by decide) (by decide) (by decide)⟩

/--
C6 (counterexample): the stored value `[0xFF]` does not parse as a signed
integer, yet `Incr` on it produces no WRONGTYPE reply: the engine panics in
`from_utf8(value).unwrap()` before reaching the integer parse.
-/
theorem C6_counterexample :
    read 0 [([107], Entry.mk [255] none)] [107] = some [255] ∧
    parseI64 [255] = none ∧
    run_command_and_get_response 0 [([107], Entry.mk [255] none)]
      (Except.ok (Command.Incr [107])) = none := by decide

/--
C7: the claim that every engine response ends in CRLF is the code's own
convention everywhere else, but the `Incr` type-mismatch arm returns the
byte literal `-WRONGTYPE Operation against a key holding the wrong kind of
value` followed by two `}` bytes and no CRLF terminator — a slip in the
source (`}}` where `\r\n` belongs). Executed on a key holding "abc", the
reply's last two bytes are not CR LF.
-/
theorem C7_wrongtype_reply_lacks_crlf :
    run_command_and_get_response 0 [([107], Entry.mk (bts "abc") none)]
        (Except.ok (Command.Incr [107])) =
      some ([([107], Entry.mk (bts "abc") none)], wrongTypeReply) ∧
    wrongTypeReply.reverse.take 2 ≠ [10, 13] ∧
    okReply.reverse.take 2 = [10, 13] := by decide

/--
C8: `Setnx` on an existing key (expiry-aware `contains`) leaves storage
entirely unchanged and replies integer 0; on an absent key it performs
exactly the write `Set` performs (same post-state) and replies integer 1.
-/
theorem C8_setnx (now : Nat) (s : Store) (k : Key) (v : Value) :
    (contains now s k = true →
      run_command_and_get_response now s (Except.ok (Command.Setnx k v)) =
        some (s, bts ":0\r\n")) ∧
    (contains now s k = false →
      run_command_and_get_response now s (Except.ok (Command.Setnx k v)) =
        some (write now s k v, bts ":1\r\n") ∧
      run_command_and_get_response now s (Except.ok (Command.Set k v)) =
        some (write now s k v, okReply)) := by
  constructor
  · intro h
    simp only [run_command_and_get_response, h]
  · intro h
    exact ⟨by simp only [run_command_and_get_response, h], rfl⟩

/--
C8 (witness): `Setnx` on a present key replies `:0` and changes nothing;
on an absent key it writes the same store `Set` would and replies `:1`.
-/
theorem C8_witness :
    (contains 0 [([107], Entry.mk [118] none)] [107] = true ∧
      run_command_and_get_response 0 [([107], Entry.mk [118] none)]
          (Except.ok (Command.Setnx [107] [120])) =
        some ([([107], Entry.mk [118] none)], bts ":0\r\n")) ∧
    (contains 0 [] [107] = false ∧
      (run_command_and_get_response 0 []
          (Except.ok (Command.Setnx [107] [120])) =
        some (write 0 [] [107] [120], bts ":1\r\n") ∧
      run_command_and_get_response 0 [] (Except.ok (Command.Set [107] [120])) =
        some (write 0 [] [107] [120], okReply))) :=
  ⟨⟨by decide,
      (C8_setnx 0 [([107], Entry.mk [118] none)] [107] [120]).1 (by decide)⟩,
    ⟨by decide, (C8_setnx 0 [] [107] [120]).2 (by decide)⟩⟩

/--
C9: on a key whose stored value is not valid UTF-8 (here the single byte
`0xFF`), each of `Get`, `GetSet`, `MGet` and `Incr` panics — the engine
aborts in `std::str::from_utf8(value).unwrap()` while formatting the reply,
producing no response at all (`none`).
-/
theorem C9_binary_value_panics :
    run_command_and_get_response 0 [([107], Entry.mk [255] none)]
      (Except.ok (Command.Get [107])) = none ∧
    run_command_and_get_response 0 [([107], Entry.mk [255] none)]
      (Except.ok (Command.GetSet [107] [120])) = none ∧
    run_command_and_get_response 0 [([107], Entry.mk [255] none)]
      (Except.ok (Command.MGet [[107]])) = none ∧
    run_command_and_get_response 0 [([107], Entry.mk [255] none)]
      (Except.ok (Command.Incr [107])) = none := by
  refine ⟨?_, ?_, ?_, ?_⟩ <;> decide

/--
C10: `Incr` arithmetic is signed 64-bit. A key holding the decimal string of
`2 ^ 63` (just above `i64::MAX`) fails the integer parse and is treated as a
type mismatch: WRONGTYPE reply, storage unchanged. A key holding the decimal
string of `2 ^ 63 - 1` (`i64::MAX`) overflows on increment: the reply is
`:-9223372036854775808`, not integer `2 ^ 63`.
-/
theorem C10_incr_signed_64bit :
    run_command_and_get_response 0
        [([107], Entry.mk (bts "9223372036854775808") none)]
        (Except.ok (Command.Incr [107])) =
      some ([([107], Entry.mk (bts "9223372036854775808") none)],
        wrongTypeReply) ∧
    run_command_and_get_response 0
        [([107], Entry.mk (bts "9223372036854775807") none)]
        (Except.ok (Command.Incr [107])) =
      some ([([107], Entry.mk (bts "-9223372036854775808") none)],
        58 :: bts "-9223372036854775808" ++ crlf) ∧
    (58 :: bts "-9223372036854775808" ++ crlf : List Nat) ≠
      58 :: bts "9223372036854775808" ++ crlf := by decide

end Redisless
